import Mathlib

/-!
Shallow embedding of the pyacoustid client library (`acoustid.py`) and proofs
about its specified behaviour.

Decoded JSON payloads are modelled by the inductive type `Json`; Python dicts
are association lists in insertion order.  Fallible Python code is embedded as
functions into `Except PyErr`, where `PyErr` covers both the library's own
exception classes and the built-in Python exceptions its code can raise.
-/

namespace PyAcoustid

/-- A decoded JSON value, as returned by Python's `json.loads`.  Objects keep
their fields in insertion order, matching Python dict semantics. -/
inductive Json where
  | null
  | bool (b : Bool)
  | num (q : ℚ)
  | str (s : String)
  | arr (elems : List Json)
  | obj (fields : List (String × Json))

/-- The exceptions the embedded code can raise: the library's exception
classes (`acoustid.py` lines 50-93) plus the built-in Python exceptions its
operations can produce. -/
inductive PyErr where
  | keyError (key : String)
  | indexError
  | typeError
  | valueError
  | attributeError
  | webServiceError (message : String)
  | fingerprintGenerationError (message : String)
  | fingerprintSubmissionError (message : String)
  deriving DecidableEq, Repr

instance {ε α : Type} [DecidableEq ε] [DecidableEq α] : DecidableEq (Except ε α) := fun a b =>
  match a, b with
  | .ok x, .ok y => decidable_of_iff (x = y) (by simp)
  | .ok _, .error _ => isFalse (by simp)
  | .error _, .ok _ => isFalse (by simp)
  | .error e, .error f => decidable_of_iff (e = f) (by simp)

/-- Field lookup in a JSON object; `none` when the key is absent or the value
is not an object. -/
def Json.lookupField : Json → String → Option Json
  | .obj fields, key => fields.lookup key
  | _, _ => none

/-- Python `d[k]` on a decoded JSON value: `KeyError` when the key is absent,
`TypeError` when the value is not a dict. -/
def Json.getItem : Json → String → Except PyErr Json
  | .obj fields, key =>
      match fields.lookup key with
      | some v => .ok v
      | none => .error (.keyError key)
  | _, _ => .error .typeError

/-- Python `d.get(k)`: `none` when the key is absent; `AttributeError` when
the receiver is not a dict. -/
def Json.dictGet : Json → String → Except PyErr (Option Json)
  | .obj fields, key => .ok (fields.lookup key)
  | _, _ => .error .attributeError

/-- Python `k in d` for a dict receiver (the source only applies it to
dicts). -/
def Json.hasKey : Json → String → Bool
  | .obj fields, key => (fields.lookup key).isSome
  | _, _ => false

/-- Python truthiness of a decoded JSON value. -/
def Json.truthy : Json → Bool
  | .null => false
  | .bool b => b
  | .num q => decide (q ≠ 0)
  | .str s => decide (s ≠ "")
  | .arr elems => !elems.isEmpty
  | .obj fields => !fields.isEmpty

/-- Whether the value is exactly the given Python string. -/
def Json.isStr : Json → String → Bool
  | .str t, s => t == s
  | _, _ => false

mutual

/-- Python `str()` rendering of a decoded JSON value, used by the `%s` and
`format` interpolations in the source's error messages (string quoting and
float formatting are simplified; the claims only inspect string payloads). -/
def Json.render : Json → String
  | .null => "None"
  | .bool true => "True"
  | .bool false => "False"
  | .num q => toString q
  | .str s => s
  | .arr elems => "[" ++ Json.renderList elems ++ "]"
  | .obj fields => "\x7b" ++ Json.renderFields fields ++ "\x7d"

/-- Comma-separated rendering of a JSON array's elements. -/
def Json.renderList : List Json → String
  | [] => ""
  | [j] => Json.render j
  | j :: rest => Json.render j ++ ", " ++ Json.renderList rest

/-- Comma-separated rendering of a JSON object's fields. -/
def Json.renderFields : List (String × Json) → String
  | [] => ""
  | [(k, v)] => k ++ ": " ++ Json.render v
  | (k, v) :: rest => k ++ ": " ++ Json.render v ++ ", " ++ Json.renderFields rest

end

/-- One tuple yielded by `parse_lookup_result`: the match score, the
recording id, the optional title, and the optional joined artist names. -/
abbrev LookupTuple := Json × Json × Option Json × Option String

/-- Python `'; '.join` argument check: each joined element must be a Python str. -/
def pyJoinElem : Json → Except PyErr String
  | .str s => .ok s
  | _ => .error .typeError

/-- The comprehension `[artist['name'] for artist in ...]`
(`acoustid.py` line 267). -/
def artistNames : List Json → Except PyErr (List Json)
  | [] => .ok []
  | artist :: rest => do
      let n ← artist.getItem "name"
      let ns ← artistNames rest
      .ok (n :: ns)

/-- String extraction for every joined element, in order. -/
def pyJoinAll : List Json → Except PyErr (List String)
  | [] => .ok []
  | v :: rest => do
      let s ← pyJoinElem v
      let ss ← pyJoinAll rest
      .ok (s :: ss)

/-- The artist-name computation of `parse_lookup_result`
(`acoustid.py` lines 266-270): when `recording.get('artists')` is truthy the
names are joined with `"; "`, otherwise the artist name is `None`.  A truthy
non-list value ends in `TypeError`, as iterating it in Python would. -/
def artistNameOf (recording : Json) : Except PyErr (Option String) := do
  let artistsOpt ← recording.dictGet "artists"
  match artistsOpt with
  | some artists =>
      if artists.truthy then
        match artists with
        | .arr items => do
            let names ← artistNames items
            let strs ← pyJoinAll names
            .ok (some (String.intercalate "; " strs))
        | _ => .error .typeError
      else .ok none
  | none => .ok none

/-- The per-recording yield of `parse_lookup_result`
(`acoustid.py` line 272). -/
def tupleForRecording (score : Json) (recording : Json) :
    Except PyErr LookupTuple := do
  let artistName ← artistNameOf recording
  let rid ← recording.getItem "id"
  let title ← recording.dictGet "title"
  .ok (score, rid, title, artistName)

/-- The inner loop `for recording in result['recordings']`
(`acoustid.py` lines 264-272). -/
def tuplesForRecordings (score : Json) : List Json → Except PyErr (List LookupTuple)
  | [] => .ok []
  | recording :: rest => do
      let t ← tupleForRecording score recording
      let ts ← tuplesForRecordings score rest
      .ok (t :: ts)

/-- The per-result body of `parse_lookup_result` (`acoustid.py` lines
258-272): read the score, skip the result when it has no `recordings` key,
otherwise yield one tuple per recording. -/
def tuplesForResult (result : Json) : Except PyErr (List LookupTuple) := do
  let score ← result.getItem "score"
  if result.hasKey "recordings" then do
    let recs ← result.getItem "recordings"
    match recs with
    | .arr items => tuplesForRecordings score items
    | _ => .error .typeError
  else
    .ok []

/-- The outer loop `for result in data['results']`. -/
def tuplesForResults : List Json → Except PyErr (List LookupTuple)
  | [] => .ok []
  | result :: rest => do
      let ts ← tuplesForResult result
      let tss ← tuplesForResults rest
      .ok (ts ++ tss)

/-- The function `parse_lookup_result` (`acoustid.py` lines 246-272), with the lazily
raised exceptions of the generator surfaced by full iteration: check
`data['status'] != 'ok'`, check `'results' not in data`, then yield the
tuples of every result in order. -/
def parse_lookup_result (data : Json) : Except PyErr (List LookupTuple) := do
  let status ← data.getItem "status"
  if !(status.isStr "ok") then
    .error (.webServiceError ("status: " ++ status.render))
  else if !(data.hasKey "results") then
    .error (.webServiceError "results not included")
  else do
    let results ← data.getItem "results"
    match results with
    | .arr items => tuplesForResults items
    | _ => .error .typeError

/-- The `response.get('status')` comparison against `'ok'`. -/
def statusIsOk (statusOpt : Option Json) : Bool :=
  match statusOpt with
  | some v => v.isStr "ok"
  | none => false

/-- The response status check shared by `submit` and `track_by_mbid`
(`acoustid.py` lines 399-405 and 445-451): on a non-`"ok"` status, read
`response['error']['code']` and `response['error']['message']` inside a
`try`, mapping a `KeyError` to the generic `WebServiceError` embedding the
whole response and otherwise raising the `WebServiceError` embedding the
service's code and message. -/
def checkResponseStatus (response : Json) : Except PyErr Unit := do
  let statusOpt ← response.dictGet "status"
  if statusIsOk statusOpt then .ok ()
  else
    match response.getItem "error" with
    | .ok err =>
        match err.getItem "code" with
        | .ok code =>
            match err.getItem "message" with
            | .ok msg =>
                .error (.webServiceError
                  ("error " ++ code.render ++ ": " ++ msg.render))
            | .error (.keyError _) =>
                .error (.webServiceError ("response: " ++ response.render))
            | .error e => .error e
        | .error (.keyError _) =>
            .error (.webServiceError ("response: " ++ response.render))
        | .error e => .error e
    | .error (.keyError _) =>
        .error (.webServiceError ("response: " ++ response.render))
    | .error e => .error e

/-- A submission record: a Python dict in insertion order. -/
abbrev Record := List (String × Json)

/-- The numeric value of a nonempty all-digit character list (shared by the
embeddings of Python `int()` and `float()` string parsing). -/
def digitsVal : List Char → Option Nat
  | [] => none
  | cs =>
      if cs.all Char.isDigit then
        some (cs.foldl (fun a c => 10 * a + (c.toNat - 48)) 0)
      else none

/-- Python whitespace stripping (`str.strip`). -/
def stripChars (cs : List Char) : List Char :=
  ((cs.dropWhile Char.isWhitespace).reverse.dropWhile Char.isWhitespace).reverse

/-- Python `int()` of a string: strip whitespace, optional sign, digits. -/
def pyIntOfStr (s : String) : Except PyErr Int :=
  match stripChars s.toList with
  | '-' :: rest =>
      match digitsVal rest with
      | some n => .ok (-(n : Int))
      | none => .error .valueError
  | '+' :: rest =>
      match digitsVal rest with
      | some n => .ok (n : Int)
      | none => .error .valueError
  | t =>
      match digitsVal t with
      | some n => .ok (n : Int)
      | none => .error .valueError

/-- Truncation of a rational toward zero, the behaviour of Python `int()` on
a float. -/
def ratTrunc (q : ℚ) : Int := q.num.tdiv (q.den : Int)

/-- Python `int()` on a decoded JSON value. -/
def pyInt : Json → Except PyErr Int
  | .num q => .ok (ratTrunc q)
  | .bool b => .ok (if b then 1 else 0)
  | .str s => pyIntOfStr s
  | _ => .error .typeError

/-- Python `d[k] = v` on a dict: replace the value at an existing key in
place, or append a new key at the end. -/
def setKey : Record → String → Json → Record
  | [], k, v => [(k, v)]
  | (k', v') :: rest, k, v =>
      if k' = k then (k, v) :: rest else (k', v') :: setKey rest k v

/-- The per-record step of `submit`'s loop (`acoustid.py` lines 388-393):
raise `FingerprintSubmissionError` when `duration` or `fingerprint` is
absent, otherwise replace the record's `duration` with its `int()`
conversion.  Returns the record as mutated. -/
def processRecord (d : Record) : Except PyErr Record :=
  match d.lookup "duration", d.lookup "fingerprint" with
  | some v, some _ => do
      let n ← pyInt v
      .ok (setKey d "duration" (Json.num (n : ℚ)))
  | _, _ => .error (.fingerprintSubmissionError "missing required parameters")

/-- The `"%s.%s" % (k, i)` form-field names of one record
(`acoustid.py` lines 395-396). -/
def recordArgs (i : Nat) (d : Record) : List (String × Json) :=
  d.map (fun kv => (kv.1 ++ "." ++ toString i, kv.2))

/-- The `for i, d in enumerate(data)` loop of `submit` (`acoustid.py` lines
388-396), returning the records as mutated and the accumulated indexed form
fields. -/
def submitLoop : Nat → List Record → Except PyErr (List Record × List (String × Json))
  | _, [] => .ok ([], [])
  | i, d :: rest => do
      let d' ← processRecord d
      let (rest', args) ← submitLoop (i + 1) rest
      .ok (d' :: rest', recordArgs i d' ++ args)

/-- Everything `submit` does before its network request (`acoustid.py` lines
377-396): seed the `format`/`client`/`user` parameters and flatten the
records into indexed form fields.  A single-dict argument corresponds to a
one-element list. -/
def submitPrepare (apikey userkey : String) (data : List Record) :
    Except PyErr (List Record × List (String × Json)) := do
  let (data', fieldArgs) ← submitLoop 0 data
  .ok (data',
    [("format", Json.str "json"), ("client", Json.str apikey),
     ("user", Json.str userkey)] ++ fieldArgs)

/-- The function `submit` (`acoustid.py` lines 360-406) with the rate-limited
`_api_request` abstracted as `net`; the second component records whether the
network function was invoked at all. -/
def submit (net : List (String × Json) → Json) (apikey userkey : String)
    (data : List Record) : Except PyErr Json × Bool :=
  match submitPrepare apikey userkey data with
  | .error e => (.error e, false)
  | .ok (_, args) =>
      let response := net args
      match checkResponseStatus response with
      | .ok _ => (.ok response, true)
      | .error e => (.error e, true)

/-- The argument of `track_by_mbid`: a single identifier string or a list of
identifiers (`batch = not isinstance(release_ids, str)`). -/
inductive ReleaseIds where
  | single (mbid : String)
  | multi (mbids : List String)

/-- The four shapes `track_by_mbid` can return, per its docstring. -/
inductive TrackResult where
  | singleList (ids : List Json)
  | singlePartition (enabled disabled : List Json)
  | batchMap (entries : List (Json × List Json))
  | batchPartition (entries : List (Json × (List Json × List Json)))

/-- The comprehension `[x['id'] for x in tracks]`. -/
def trackIdsOf : List Json → Except PyErr (List Json)
  | [] => .ok []
  | x :: rest => do
      let i ← x.getItem "id"
      let more ← trackIdsOf rest
      .ok (i :: more)

/-- Python `'disabled' in x and x['disabled']` (with truthiness), the
per-track disabled test of `track_by_mbid`. -/
def trackDisabled (x : Json) : Bool :=
  match x.lookupField "disabled" with
  | some v => v.truthy
  | none => false

/-- A filtered comprehension `[x['id'] for x in tracks if keep x]`: the `id`
lookup is evaluated only for the tracks that pass the filter. -/
def filteredIds (keep : Json → Bool) : List Json → Except PyErr (List Json)
  | [] => .ok []
  | x :: rest =>
      if keep x then do
        let i ← x.getItem "id"
        let more ← filteredIds keep rest
        .ok (i :: more)
      else filteredIds keep rest

/-- The batch dict comprehension of `track_by_mbid` with `disabled=False`
(`acoustid.py` line 463), as an association list in response order. -/
def batchEntriesPlain : List Json → Except PyErr (List (Json × List Json))
  | [] => .ok []
  | m :: rest => do
      let key ← m.getItem "mbid"
      let tracks ← m.getItem "tracks"
      match tracks with
      | .arr ts => do
          let ids ← trackIdsOf ts
          let more ← batchEntriesPlain rest
          .ok ((key, ids) :: more)
      | _ => .error .typeError

/-- The batch dict comprehension of `track_by_mbid` with `disabled=True`
(`acoustid.py` lines 458-461): each track list partitioned into
(enabled, disabled) id lists. -/
def batchEntriesPartition : List Json → Except PyErr (List (Json × (List Json × List Json)))
  | [] => .ok []
  | m :: rest => do
      let key ← m.getItem "mbid"
      let tracks ← m.getItem "tracks"
      match tracks with
      | .arr ts => do
          let enabled ← filteredIds (fun x => !trackDisabled x) ts
          let disabled ← filteredIds trackDisabled ts
          let more ← batchEntriesPartition rest
          .ok ((key, (enabled, disabled)) :: more)
      | _ => .error .typeError

/-- The function `track_by_mbid` (`acoustid.py` lines 422-470) with the rate-limited
`_api_request` abstracted: `response` is the parsed JSON the service
returned.  After the shared status check, the response is reshaped according
to the batch and disabled flags. -/
def track_by_mbid (releaseIds : ReleaseIds) (disabledFlag : Bool)
    (response : Json) : Except PyErr TrackResult := do
  checkResponseStatus response
  match releaseIds with
  | .multi _ => do
      let mbids ← response.getItem "mbids"
      match mbids with
      | .arr ms =>
          if disabledFlag then do
            let entries ← batchEntriesPartition ms
            .ok (.batchPartition entries)
          else do
            let entries ← batchEntriesPlain ms
            .ok (.batchMap entries)
      | _ => .error .typeError
  | .single _ => do
      let tracks ← response.getItem "tracks"
      match tracks with
      | .arr ts =>
          if disabledFlag then do
            let enabled ← filteredIds (fun x => !trackDisabled x) ts
            let dis ← filteredIds trackDisabled ts
            .ok (.singlePartition enabled dis)
          else do
            let ids ← trackIdsOf ts
            .ok (.singleList ids)
      | _ => .error .typeError

/-- The interface of `chromaprint.Fingerprinter` as `fingerprint` uses it
(start / feed / finish over an abstract engine state `σ`, producing a
fingerprint of type `φ`); each operation may fail with an engine-specific
`chromaprint.FingerprintError`, carried here as a string. -/
structure Engine (σ φ : Type) where
  start : σ → Nat → Nat → Except String σ
  feed : σ → List Nat → Except String σ
  finish : σ → Except String φ

/-- The feeding loop of `fingerprint` (`acoustid.py` lines 220-225): feed the
block, add `len(block) // 2` samples to the position, and stop as soon as the
position reaches `endposition`. -/
def feedBlocks {σ φ : Type} (eng : Engine σ φ) :
    σ → Nat → Nat → List (List Nat) → Except String σ
  | st, _, _, [] => .ok st
  | st, position, endposition, block :: rest => do
      let st' ← eng.feed st block
      let pos := position + block.length / 2
      if endposition ≤ pos then .ok st'
      else feedBlocks eng st' pos endposition rest

/-- The function `fingerprint` (`acoustid.py` lines 207-229): start the engine, feed PCM
blocks until the sample ceiling `samplerate * channels * maxlength` is
reached or the input is exhausted, finish, and map any engine error to
`FingerprintGenerationError`. -/
def fingerprint {σ φ : Type} (eng : Engine σ φ) (st0 : σ)
    (samplerate channels : Nat) (pcmiter : List (List Nat))
    (maxlength : Nat) : Except PyErr φ :=
  let endposition := samplerate * channels * maxlength
  match (do
      let st ← eng.start st0 samplerate channels
      let st ← feedBlocks eng st 0 endposition pcmiter
      eng.finish st : Except String φ) with
  | .ok fp => .ok fp
  | .error _ => .error (.fingerprintGenerationError "fingerprint calculation failed")

/-- The prefix of the PCM blocks that the feeding loop actually feeds,
starting from the given position. -/
def fedPrefix (position endposition : Nat) : List (List Nat) → List (List Nat)
  | [] => []
  | block :: rest =>
      let pos := position + block.length / 2
      if endposition ≤ pos then [block]
      else block :: fedPrefix pos endposition rest

/-- Total sample count of a list of PCM blocks, at 2 bytes per sample. -/
def sampleCount : List (List Nat) → Nat
  | [] => 0
  | block :: rest => block.length / 2 + sampleCount rest

/-- Splitting a character list at every occurrence of a separator (the
behaviour of Python `split` with a one-character separator: splitting the
empty input gives one empty piece). -/
def splitCharsOn (sep : Char) : List Char → List (List Char)
  | [] => [[]]
  | c :: rest =>
      if c = sep then [] :: splitCharsOn sep rest
      else
        match splitCharsOn sep rest with
        | [] => [[c]]
        | piece :: pieces => (c :: piece) :: pieces

/-- Splitting a character list at the first occurrence of a separator only;
`none` when the separator does not occur. -/
def splitCharsFirst (sep : Char) : List Char → Option (List Char × List Char)
  | [] => none
  | c :: rest =>
      if c = sep then some ([], rest)
      else (splitCharsFirst sep rest).map (fun p => (c :: p.1, p.2))

/-- Python `bytes.splitlines` for newline-separated output: split on the
newline character, dropping the trailing empty piece a final newline would
produce. -/
def pySplitlines (s : String) : List String :=
  let parts := (splitCharsOn '\n' s.toList).map String.mk
  match parts.getLast? with
  | some "" => parts.dropLast
  | _ => parts

/-- Python `line.split(b'=', 1)`: split at the first `=` only; a line with
no `=` yields a one-element list (this never raises). -/
def pySplitOnce (line : String) : List String :=
  match splitCharsFirst '=' line.toList with
  | none => [line]
  | some (a, b) => [String.mk a, String.mk b]

/-- Python `float()` of an unsigned numeric literal: digits with an optional
decimal point (exponents and the named special values are not modelled; the
source only ever parses fpcalc durations). -/
def pyFloatCore (t : List Char) : Option ℚ :=
  match splitCharsOn '.' t with
  | [whole] => (digitsVal whole).map (fun n => (n : ℚ))
  | [whole, frac] =>
      if whole.isEmpty && frac.isEmpty then none
      else
        match (if whole.isEmpty then some 0 else digitsVal whole),
              (if frac.isEmpty then some 0 else digitsVal frac) with
        | some w, some f =>
            some ((w : ℚ) + (f : ℚ) / ((10 : ℚ) ^ frac.length))
        | _, _ => none
  | _ => none

/-- Python `float()` of a string: strip whitespace, optional sign, then an
unsigned numeric literal; anything else is a `ValueError`. -/
def pyFloat (s : String) : Except PyErr ℚ :=
  match stripChars s.toList with
  | '-' :: rest =>
      match pyFloatCore rest with
      | some q => .ok (-q)
      | none => .error .valueError
  | '+' :: rest =>
      match pyFloatCore rest with
      | some q => .ok q
      | none => .error .valueError
  | t =>
      match pyFloatCore t with
      | some q => .ok q
      | none => .error .valueError

/-- The line loop of `_fingerprint_file_fpcalc` (`acoustid.py` lines
311-324).  `bytes.split` with a separator never raises, so the source's
`except ValueError` branch around it is unreachable and has no counterpart
here.  A `DURATION` or `FINGERPRINT` line with no `=` makes `parts[1]` an
out-of-range index, raising `IndexError`; a non-numeric duration raises
`FingerprintGenerationError`; any other line is skipped. -/
def fpcalcLines : List String → Option ℚ → Option String →
    Except PyErr (Option ℚ × Option String)
  | [], duration, fp => .ok (duration, fp)
  | line :: rest, duration, fp =>
      match pySplitOnce line with
      | [] => .ok (duration, fp)
      | p0 :: restParts =>
          if p0 = "DURATION" then
            match restParts.head? with
            | none => .error .indexError
            | some p1 =>
                match pyFloat p1 with
                | .ok q => fpcalcLines rest (some q) fp
                | .error _ =>
                    .error (.fingerprintGenerationError "fpcalc duration not numeric")
          else if p0 = "FINGERPRINT" then
            match restParts.head? with
            | none => .error .indexError
            | some p1 => fpcalcLines rest duration (some p1)
          else fpcalcLines rest duration fp

/-- The output-parsing step of `_fingerprint_file_fpcalc` (`acoustid.py`
lines 311-327): scan the `KEY=VALUE` lines and fail with
`FingerprintGenerationError` when the duration or the fingerprint is still
missing at the end. -/
def fpcalcParseOutput (output : String) : Except PyErr (ℚ × String) := do
  let (duration, fp) ← fpcalcLines (pySplitlines output) none none
  match duration, fp with
  | some d, some f => .ok (d, f)
  | _, _ => .error (.fingerprintGenerationError "missing fpcalc output")

/-- The sleep `_rate_limit.__call__` performs (`acoustid.py` lines 166-168):
when less than the interval has passed since `last_call`, sleep for the
difference. -/
def sleepDuration (interval lastCall t1 : ℚ) : ℚ :=
  if t1 - lastCall < interval then interval - (t1 - lastCall) else 0

/-- The new `last_call` timestamp (`acoustid.py` line 169), taken when the
wrapped operation begins: the entry clock reading `t1` plus the sleep, plus a
nonnegative `slack` accounting for `time.sleep` oversleeping and for the
clock advancing between statements. -/
def nextLastCall (interval lastCall t1 slack : ℚ) : ℚ :=
  t1 + sleepDuration interval lastCall t1 + slack

/-- The exceptions `requests` can raise from `session.post`; every one of
them, `ReadTimeout` included, is a subclass of
`requests.exceptions.RequestException`. -/
inductive ReqException where
  | readTimeout (msg : String)
  | connectTimeout (msg : String)
  | connectionError (msg : String)
  | other (msg : String)

/-- Python `isinstance(exc, requests.exceptions.RequestException)`: true for every
`requests` exception. -/
def ReqException.isRequestException : ReqException → Bool := fun _ => true

/-- Python `isinstance(exc, requests.exceptions.ReadTimeout)`. -/
def ReqException.isReadTimeout : ReqException → Bool
  | .readTimeout _ => true
  | _ => false

/-- Python `str(exc)`. -/
def ReqException.excStr : ReqException → String
  | .readTimeout m => m
  | .connectTimeout m => m
  | .connectionError m => m
  | .other m => m

/-- Python `str()` of the optional timeout argument. -/
def timeoutStr : Option ℚ → String
  | some q => toString q
  | none => "None"

/-- The `except` dispatch of `_api_request` (`acoustid.py` lines 189-197):
Python tries the clauses in source order, so the error produced is that of
the first clause whose exception class matches; `none` would mean no clause
matched and the exception propagates. -/
def apiRequestExcResult (timeout : Option ℚ) (exc : ReqException) : Option PyErr :=
  if exc.isRequestException then
    some (.webServiceError ("HTTP request failed: " ++ exc.excStr))
  else if exc.isReadTimeout then
    some (.webServiceError ("HTTP request timed out (" ++ timeoutStr timeout ++ "s)"))
  else none

/-- The constructor `WebServiceError.__init__` (`acoustid.py` lines 74-93).  The second
argument is the optional HTTP response body, pre-composed with `json.loads`:
`none` when no (truthy) response was supplied, `some none` when the body did
not parse as JSON, `some (some data)` otherwise.  Returns the final
`message` together with the optional `code` attribute; a parsed non-dict
body makes `data.get` raise `AttributeError`. -/
def webServiceErrorInit (fallback : String) (response : Option (Option Json)) :
    Except PyErr (Json × Option Json) :=
  match response with
  | some (some (Json.obj fields)) =>
      match fields.lookup "error" with
      | some (Json.obj errFields) =>
          .ok ((match errFields.lookup "message" with
                | some m => m
                | none => Json.str fallback),
               errFields.lookup "code")
      | _ => .ok (Json.str fallback, none)
  | some (some _) => .error .attributeError
  | _ => .ok (Json.str fallback, none)

/-- Decidable substring search on character lists: does the haystack start
with the needle? -/
def charStartsWith : List Char → List Char → Bool
  | _, [] => true
  | [], _ :: _ => false
  | c :: cs, d :: ds => c == d && charStartsWith cs ds

/-- Decidable substring search: does the needle occur anywhere in the
haystack? -/
def charSub : List Char → List Char → Bool
  | [], needle => needle.isEmpty
  | c :: cs, needle => charStartsWith (c :: cs) needle || charSub cs needle

/-- Decidable containment of one string in another. -/
def strContainsSub (hay needle : String) : Bool :=
  charSub hay.toList needle.toList

/-- Spec-side description of one recording in a valid lookup payload: an id,
an optional title, and the artist names in server order (absent when empty).
Used to state what `parse_lookup_result` yields. -/
structure RecordingInfo where
  rid : String
  title : Option String
  artists : List String

/-- Spec-side description of one lookup result: a score and, optionally, its
attached recordings (`none` = no `recordings` key). -/
structure ResultInfo where
  score : ℚ
  recordings : Option (List RecordingInfo)

/-- JSON encoding of a recording as the server would send it. -/
def encodeRecording (r : RecordingInfo) : Json :=
  .obj ([("id", Json.str r.rid)]
    ++ (match r.title with
        | some t => [("title", Json.str t)]
        | none => [])
    ++ (if r.artists.isEmpty then []
        else [("artists",
               Json.arr (r.artists.map fun n => Json.obj [("name", Json.str n)]))]))

/-- JSON encoding of a lookup result. -/
def encodeResult (r : ResultInfo) : Json :=
  .obj ([("score", Json.num r.score)]
    ++ (match r.recordings with
        | some recs => [("recordings", Json.arr (recs.map encodeRecording))]
        | none => []))

/-- JSON encoding of a whole valid lookup payload (`status` is `"ok"` and a
`results` list is present). -/
def encodeLookupPayload (rs : List ResultInfo) : Json :=
  .obj [("status", Json.str "ok"),
        ("results", Json.arr (rs.map encodeResult))]

/-- The tuple the spec says `parse_lookup_result` yields for one recording:
its result's score, its id, its optional title, and its artist names joined
with `"; "` in server order (or `none` when there are none). -/
def expectedTuple (score : ℚ) (r : RecordingInfo) : LookupTuple :=
  (Json.num score, Json.str r.rid, r.title.map Json.str,
   if r.artists.isEmpty then none
   else some (String.intercalate "; " r.artists))

/-- The full tuple sequence the spec says `parse_lookup_result` yields:
results in server order, a result without recordings contributing nothing,
and one tuple per recording otherwise. -/
def expectedTuples : List ResultInfo → List LookupTuple
  | [] => []
  | r :: rest =>
      (match r.recordings with
       | none => []
       | some recs => recs.map (expectedTuple r.score)) ++ expectedTuples rest

/-- JSON encoding of one entry of a batch `track_by_mbid` response: an mbid
and its track ids. -/
def encodeMbidEntry (p : String × List String) : Json :=
  .obj [("mbid", Json.str p.1),
        ("tracks", Json.arr (p.2.map fun t => Json.obj [("id", Json.str t)]))]

/-- JSON encoding of a whole batch `track_by_mbid` response. -/
def encodeBatchResponse (entries : List (String × List String)) : Json :=
  .obj [("status", Json.str "ok"),
        ("mbids", Json.arr (entries.map encodeMbidEntry))]

/-- JSON encoding of a single-identifier `track_by_mbid` response. -/
def encodeSingleResponse (tracks : List String) : Json :=
  .obj [("status", Json.str "ok"),
        ("tracks", Json.arr (tracks.map fun t => Json.obj [("id", Json.str t)]))]

@[simp] theorem exceptBind_ok {ε α β : Type} (a : α) (f : α → Except ε β) :
    (Except.ok a >>= f : Except ε β) = f a := rfl

@[simp] theorem exceptBind_error {ε α β : Type} (e : ε) (f : α → Except ε β) :
    (Except.error e >>= f : Except ε β) = Except.error e := rfl

theorem charStartsWith_refl_append (xs ys : List Char) :
    charStartsWith (xs ++ ys) xs = true := by
  induction xs with
  | nil => cases ys <;> rfl
  | cons c cs ih => simp [charStartsWith, ih]

theorem charSub_nil_needle (l : List Char) : charSub l [] = true := by
  cases l with
  | nil => rfl
  | cons c cs => simp [charSub, charStartsWith]

theorem charSub_self_append (needle post : List Char) :
    charSub (needle ++ post) needle = true := by
  cases needle with
  | nil => simp [charSub_nil_needle]
  | cons n ns =>
      have h := charStartsWith_refl_append (n :: ns) post
      rw [List.cons_append] at h
      simp [charSub, h]

theorem charSub_append_left (pre rest needle : List Char)
    (h : charSub rest needle = true) : charSub (pre ++ rest) needle = true := by
  induction pre with
  | nil => simpa using h
  | cons c cs ih => simp [charSub, ih]

theorem charStartsWith_nil_needle (l : List Char) :
    charStartsWith l [] = true := by
  cases l <;> rfl

theorem charStartsWith_extend (xs ys needle : List Char)
    (h : charStartsWith xs needle = true) :
    charStartsWith (xs ++ ys) needle = true := by
  induction needle generalizing xs with
  | nil => simp [charStartsWith_nil_needle]
  | cons d ds ih =>
      cases xs with
      | nil => simp [charStartsWith] at h
      | cons c cs =>
          simp only [charStartsWith, Bool.and_eq_true] at h
          simp [charStartsWith, h.1, ih cs h.2]

theorem charSub_extend (xs ys needle : List Char)
    (h : charSub xs needle = true) : charSub (xs ++ ys) needle = true := by
  induction xs with
  | nil =>
      simp only [charSub, List.isEmpty_iff] at h
      subst h
      simp [charSub_nil_needle]
  | cons c cs ih =>
      simp only [charSub, Bool.or_eq_true] at h
      rcases h with h | h
      · have hx := charStartsWith_extend (c :: cs) ys needle h
        rw [List.cons_append] at hx
        simp [charSub, hx]
      · simp [charSub, ih h]

theorem strContains_append_of_left (a b n : String)
    (h : strContainsSub a n = true) : strContainsSub (a ++ b) n = true := by
  unfold strContainsSub at h ⊢
  rw [show (a ++ b).toList = a.toList ++ b.toList by
        simp [String.toList, String.data_append]]
  exact charSub_extend _ _ _ h

theorem strContains_append_right (a b n : String)
    (h : strContainsSub b n = true) : strContainsSub (a ++ b) n = true := by
  unfold strContainsSub at h ⊢
  rw [show (a ++ b).toList = a.toList ++ b.toList by
        simp [String.toList, String.data_append]]
  exact charSub_append_left _ _ _ h

theorem strContains_self_append (n post : String) :
    strContainsSub (n ++ post) n = true := by
  unfold strContainsSub
  rw [show (n ++ post).toList = n.toList ++ post.toList by
        simp [String.toList, String.data_append]]
  exact charSub_self_append _ _

theorem strContains_self (n : String) : strContainsSub n n = true := by
  unfold strContainsSub
  have := charSub_self_append n.toList []
  simpa using this

theorem strContains_of_decomp (pre needle post : String) :
    strContainsSub (pre ++ needle ++ post) needle = true := by
  rw [String.append_assoc]
  exact strContains_append_right _ _ _ (strContains_self_append _ _)

/-- C2: the claim says a timed-out `_api_request` with a specified timeout
raises a `WebServiceError` whose message names the timeout value.  In the
code, `requests.exceptions.ReadTimeout` is a subclass of
`requests.exceptions.RequestException`, so the earlier `except` clause
(line 192) catches the timeout and produces the generic
"HTTP request failed" message; the dedicated timeout handler on lines
194-197 is unreachable.  At timeout 5 with the exception text
"Read timed out.", the resulting message does not contain "5". -/
theorem c2_timeout_handler_shadowed :
    apiRequestExcResult (some 5) (.readTimeout "Read timed out.")
      = some (.webServiceError "HTTP request failed: Read timed out.")
    ∧ strContainsSub "HTTP request failed: Read timed out." "5" = false
    ∧ ¬ ∃ pre post : String,
        "HTTP request failed: Read timed out." = pre ++ "5" ++ post := by
  refine ⟨rfl, by decide, ?_⟩
  rintro ⟨pre, post, h⟩
  have hc := strContains_of_decomp pre "5" post
  rw [← h] at hc
  have hf : strContainsSub "HTTP request failed: Read timed out." "5" = false := by decide
  rw [hf] at hc
  exact Bool.false_ne_true hc

/-- C3: on the idealized clock model of `_rate_limit.__call__`, with
`t1 ≥ lastCall` (monotone clock) and nonnegative slack, the new `last_call`
timestamp — taken when the wrapped operation begins — is at least the
configured interval after the previous one whenever the interval is
positive, and a zero interval causes no sleep at all. -/
theorem c3_rate_limit_spacing (interval lastCall t1 slack : ℚ)
    (hslack : 0 ≤ slack) (hmono : lastCall ≤ t1) :
    (0 < interval →
      interval ≤ nextLastCall interval lastCall t1 slack - lastCall)
    ∧ (interval = 0 → sleepDuration interval lastCall t1 = 0) := by
  constructor
  · intro hpos
    unfold nextLastCall sleepDuration
    split_ifs with h
    · linarith
    · push_neg at h
      linarith
  · intro h0
    subst h0
    unfold sleepDuration
    split_ifs with h
    · linarith
    · rfl

/-- Witness for C3 at interval 1, last call 0, clock reading 0, slack 0. -/
theorem c3_rate_limit_spacing_witness :
    (1 : ℚ) ≤ nextLastCall 1 0 0 0 - 0 :=
  (c3_rate_limit_spacing 1 0 0 0 (le_refl 0) (le_refl 0)).1 (by norm_num)

/-- C5 counterexample: on the payload `{}` — whose top-level `status` field
is absent — iterating `parse_lookup_result` raises `KeyError` (from
`data['status']`), not the `WebServiceError` the claim requires. -/
theorem c5_counterexample :
    parse_lookup_result (Json.obj []) = .error (.keyError "status")
    ∧ ∀ msg, (Except.error (PyErr.keyError "status")
        : Except PyErr (List LookupTuple)) ≠ .error (.webServiceError msg) := by
  refine ⟨rfl, ?_⟩
  intro msg h
  simp at h

/-- C5 amended: when the `status` field is absent, iterating
`parse_lookup_result` raises `KeyError "status"`; when it is present as a
string other than `"ok"`, it raises a `WebServiceError` whose message
contains that status value; when it is present as any non-`"ok"` value, the
`WebServiceError` message renders that value; and when the status is `"ok"`
but `results` is absent, it raises `WebServiceError "results not
included"`. -/
theorem c5_parse_status_amended (fields : List (String × Json)) :
    ((Json.obj fields).lookupField "status" = none →
      parse_lookup_result (Json.obj fields) = .error (.keyError "status"))
    ∧ (∀ s, (Json.obj fields).lookupField "status" = some (Json.str s) →
        s ≠ "ok" →
        parse_lookup_result (Json.obj fields)
          = .error (.webServiceError ("status: " ++ s))
        ∧ strContainsSub ("status: " ++ s) s = true)
    ∧ (∀ v, (Json.obj fields).lookupField "status" = some v →
        v.isStr "ok" = false →
        parse_lookup_result (Json.obj fields)
          = .error (.webServiceError ("status: " ++ v.render)))
    ∧ ((Json.obj fields).lookupField "status" = some (Json.str "ok") →
        (Json.obj fields).lookupField "results" = none →
        parse_lookup_result (Json.obj fields)
          = .error (.webServiceError "results not included")) := by
  simp only [Json.lookupField]
  refine ⟨?_, ?_, ?_, ?_⟩
  · intro h
    simp [parse_lookup_result, Json.getItem, h]
  · intro s h hne
    constructor
    · simp [parse_lookup_result, Json.getItem, h, Json.isStr, hne, Json.render]
    · exact strContains_append_right "status: " s s (strContains_self s)
  · intro v h hne
    simp [parse_lookup_result, Json.getItem, h, hne]
  · intro h hres
    simp [parse_lookup_result, Json.getItem, h, Json.isStr, Json.hasKey, hres]

/-- Witness for C5 at the concrete payload with status `"failed"`. -/
theorem c5_parse_status_amended_witness :
    parse_lookup_result (Json.obj [("status", Json.str "failed")])
      = .error (.webServiceError ("status: " ++ "failed"))
    ∧ strContainsSub ("status: " ++ "failed") "failed" = true :=
  (c5_parse_status_amended [("status", Json.str "failed")]).2.1 "failed" rfl
    (by decide)

/-- C1 counterexample: calling `track_by_mbid(["a", "b"], disabled=False)`
against a response whose `mbids` list only mentions `"a"` returns the
mapping `{"a": []}`: its key set is not the input set `{"a", "b"}`, and the
input identifier `"b"`, absent from the response, is not mapped to an empty
list — it is absent from the mapping altogether. -/
theorem c1_counterexample :
    track_by_mbid (.multi ["a", "b"]) false
        (Json.obj [("status", Json.str "ok"),
                   ("mbids", Json.arr [Json.obj [("mbid", Json.str "a"),
                                                 ("tracks", Json.arr [])]])])
      = .ok (.batchMap [(Json.str "a", [])])
    ∧ ∀ ids : List Json,
        (Json.str "b", ids) ∉ [(Json.str "a", ([] : List Json))] := by
  refine ⟨rfl, ?_⟩
  intro ids h
  simp at h

theorem trackIdsOf_encoded (ts : List String) :
    trackIdsOf (ts.map fun t => Json.obj [("id", Json.str t)])
      = .ok (ts.map Json.str) := by
  induction ts with
  | nil => rfl
  | cons t rest ih => simp [trackIdsOf, Json.getItem, List.lookup, ih]

theorem batchEntriesPlain_encoded (entries : List (String × List String)) :
    batchEntriesPlain (entries.map encodeMbidEntry)
      = .ok (entries.map fun p => (Json.str p.1, p.2.map Json.str)) := by
  induction entries with
  | nil => rfl
  | cons p rest ih =>
      simp [batchEntriesPlain, encodeMbidEntry, Json.getItem, List.lookup,
            trackIdsOf_encoded, ih]

/-- C1 amended: with `disabled=False`, a batch call returns the mapping whose
keys are exactly the mbids appearing in the response's `mbids` list — in
response order, each mapped to its list of track ids — independently of the
input identifier list (input identifiers absent from the response are simply
absent from the mapping); a single identifier string returns the plain list
of track ids of the response. -/
theorem c1_track_by_mbid_amended (ids : List String) (sid : String)
    (entries : List (String × List String)) (tracks : List String) :
    track_by_mbid (.multi ids) false (encodeBatchResponse entries)
      = .ok (.batchMap (entries.map fun p => (Json.str p.1, p.2.map Json.str)))
    ∧ track_by_mbid (.single sid) false (encodeSingleResponse tracks)
      = .ok (.singleList (tracks.map Json.str)) := by
  constructor
  · have hc : checkResponseStatus
        (Json.obj [("status", Json.str "ok"),
                   ("mbids", Json.arr (List.map encodeMbidEntry entries))])
        = Except.ok () := rfl
    simp [track_by_mbid, encodeBatchResponse, Json.getItem, List.lookup,
          batchEntriesPlain_encoded, hc]
  · have hc : checkResponseStatus
        (Json.obj [("status", Json.str "ok"),
                   ("tracks", Json.arr (List.map (fun t =>
                     Json.obj [("id", Json.str t)]) tracks))])
        = Except.ok () := rfl
    simp [track_by_mbid, encodeSingleResponse, Json.getItem, List.lookup,
          trackIdsOf_encoded, hc]

theorem pyInt_error_kinds (v : Json) (e : PyErr) (h : pyInt v = .error e) :
    e = .typeError ∨ e = .valueError := by
  cases v with
  | str s =>
      simp only [pyInt, pyIntOfStr] at h
      split at h <;> split at h <;> simp_all
  | _ => simp_all [pyInt]

theorem processRecord_error_kinds (d : Record) (e : PyErr)
    (h : processRecord d = .error e) :
    e = .fingerprintSubmissionError "missing required parameters"
    ∨ e = .typeError ∨ e = .valueError := by
  unfold processRecord at h
  cases hdur : List.lookup "duration" d with
  | none => simp [hdur] at h; simp [h]
  | some v =>
      cases hfp : List.lookup "fingerprint" d with
      | none => simp [hdur, hfp] at h; simp [h]
      | some w =>
          simp only [hdur, hfp] at h
          cases hint : pyInt v with
          | error e' =>
              rw [hint] at h
              simp at h
              right
              exact h ▸ pyInt_error_kinds v e' hint
          | ok n => rw [hint] at h; simp at h

theorem processRecord_ok_keys (d d' : Record)
    (h : processRecord d = .ok d') :
    (List.lookup "duration" d).isSome ∧ (List.lookup "fingerprint" d).isSome := by
  unfold processRecord at h
  cases hdur : List.lookup "duration" d <;>
    cases hfp : List.lookup "fingerprint" d <;> simp_all

theorem submitLoop_error_of_invalid (i : Nat) (data : List Record)
    (h : ∃ d ∈ data,
      (List.lookup "duration" d).isNone ∨ (List.lookup "fingerprint" d).isNone) :
    ∃ e, submitLoop i data = .error e
      ∧ (e = .fingerprintSubmissionError "missing required parameters"
         ∨ e = .typeError ∨ e = .valueError) := by
  induction data generalizing i with
  | nil => obtain ⟨d, hd, _⟩ := h; simp at hd
  | cons d rest ih =>
      obtain ⟨d0, hd0, hmiss⟩ := h
      cases hp : processRecord d with
      | error e =>
          exact ⟨e, by simp [submitLoop, hp], processRecord_error_kinds d e hp⟩
      | ok d' =>
          have hkeys := processRecord_ok_keys d d' hp
          rcases List.mem_cons.mp hd0 with heq | hmem
          · subst heq
            rcases hmiss with hm | hm
            · rw [Option.isNone_iff_eq_none] at hm
              rw [hm] at hkeys
              simp at hkeys
            · rw [Option.isNone_iff_eq_none] at hm
              rw [hm] at hkeys
              simp at hkeys
          · obtain ⟨e, he, hcls⟩ := ih (i + 1) ⟨d0, hmem, hmiss⟩
            exact ⟨e, by simp [submitLoop, hp, he], hcls⟩

/-- C4 counterexample: in
`submit(apikey, userkey, [{"fingerprint": "f", "duration": None}, {}])` the
second record lacks both required keys, so the claim demands a
`FingerprintSubmissionError`; but the loop first reaches
`int(None)` on the earlier record and raises `TypeError` instead.  No
network request is issued either way. -/
theorem c4_counterexample :
    submit (fun _ => Json.obj [("status", Json.str "ok")]) "k" "u"
        [[("fingerprint", Json.str "f"), ("duration", Json.null)], []]
      = (.error .typeError, false)
    ∧ (Except.error PyErr.typeError : Except PyErr Json)
        ≠ .error (.fingerprintSubmissionError "missing required parameters") := by
  refine ⟨rfl, ?_⟩
  intro h
  simp at h

/-- C4 amended: whenever some record lacks `fingerprint` or `duration`, the
call fails before any network request — the rate-limited API request
function is never invoked — and the error raised is
`FingerprintSubmissionError`, unless integer conversion of an earlier
record's `duration` value fails first, in which case that conversion error
(`TypeError` or `ValueError`) is raised. -/
theorem c4_submit_validation_amended (net : List (String × Json) → Json)
    (apikey userkey : String) (data : List Record)
    (h : ∃ d ∈ data,
      (List.lookup "duration" d).isNone ∨ (List.lookup "fingerprint" d).isNone) :
    (submit net apikey userkey data).2 = false
    ∧ ((submit net apikey userkey data).1
        = .error (.fingerprintSubmissionError "missing required parameters")
      ∨ (submit net apikey userkey data).1 = .error .typeError
      ∨ (submit net apikey userkey data).1 = .error .valueError) := by
  obtain ⟨e, he, hcls⟩ := submitLoop_error_of_invalid 0 data h
  have hprep : submitPrepare apikey userkey data = .error e := by
    simp [submitPrepare, he]
  unfold submit
  rw [hprep]
  refine ⟨rfl, ?_⟩
  rcases hcls with h1 | h1 | h1 <;> simp [h1]

/-- Witness for C4 at a single empty record. -/
theorem c4_submit_validation_amended_witness :
    (submit (fun _ => Json.obj [("status", Json.str "ok")]) "k" "u" [[]]).2 = false
    ∧ ((submit (fun _ => Json.obj [("status", Json.str "ok")]) "k" "u" [[]]).1
        = .error (.fingerprintSubmissionError "missing required parameters")
      ∨ (submit (fun _ => Json.obj [("status", Json.str "ok")]) "k" "u" [[]]).1
        = .error .typeError
      ∨ (submit (fun _ => Json.obj [("status", Json.str "ok")]) "k" "u" [[]]).1
        = .error .valueError) :=
  c4_submit_validation_amended (fun _ => Json.obj [("status", Json.str "ok")])
    "k" "u" [[]] ⟨[], by simp, by simp⟩

/-- C8 counterexample: the claim says malformed output lines raise
`FingerprintGenerationError`; but `bytes.split` with a separator never
raises `ValueError`, so the source's handler for it (line 315-316) is
unreachable, and a line with no `=` whose content is not `DURATION` or
`FINGERPRINT` is silently skipped: the output
`b"garbage\nDURATION=7\nFINGERPRINT=X"` parses successfully instead of
raising. -/
theorem c8_counterexample :
    fpcalcParseOutput "garbage\nDURATION=7\nFINGERPRINT=X" = .ok (7, "X")
    ∧ ∀ msg, (Except.ok ((7 : ℚ), "X") : Except PyErr (ℚ × String))
        ≠ .error (.fingerprintGenerationError msg) := by
  refine ⟨by decide, ?_⟩
  intro msg h
  simp at h

/-- C8 amended: `b"DURATION=120\nFINGERPRINT=AQAB...\n"` parses to
`(120.0, b"AQAB...")`; a non-numeric `DURATION` value raises
`FingerprintGenerationError "fpcalc duration not numeric"`; a line with no
`=` is silently ignored unless its whole content is `DURATION` or
`FINGERPRINT`, in which case the out-of-range `parts[1]` raises an uncaught
`IndexError` (the source's `except ValueError` handler around `split` is
dead code); and output missing the `DURATION` or the `FINGERPRINT` line
after all lines are parsed raises
`FingerprintGenerationError "missing fpcalc output"`. -/
theorem c8_fpcalc_parse_amended :
    fpcalcParseOutput "DURATION=120\nFINGERPRINT=AQAB...\n" = .ok (120, "AQAB...")
    ∧ fpcalcParseOutput "DURATION=12x\nFINGERPRINT=A"
        = .error (.fingerprintGenerationError "fpcalc duration not numeric")
    ∧ fpcalcParseOutput "junk\nDURATION=120\nFINGERPRINT=A\n" = .ok (120, "A")
    ∧ fpcalcParseOutput "DURATION\nFINGERPRINT=A" = .error .indexError
    ∧ fpcalcParseOutput "FINGERPRINT\nDURATION=120" = .error .indexError
    ∧ fpcalcParseOutput "DURATION=120\n"
        = .error (.fingerprintGenerationError "missing fpcalc output")
    ∧ fpcalcParseOutput "FINGERPRINT=A\n"
        = .error (.fingerprintGenerationError "missing fpcalc output") :=
  ⟨by decide, by decide, by decide, by decide, by decide, by decide, by decide⟩

/-- C9: a `WebServiceError` built from a response whose JSON payload has an
`error` object with `code` and `message` fields carries the service's
message — not the generic fallback — and exposes the service's code; the
status check shared by `submit` and `track_by_mbid` raises a
`WebServiceError` whose message embeds the service's code and message on a
non-`"ok"` status, and a generic `WebServiceError` embedding the raw
response when the error object lacks the `code` or the `message` field (or
is absent); `submit` and `track_by_mbid` surface exactly the error this
check produces. -/
theorem c9_webservice_error_fields :
    (∀ (fallback : String) (fields errFields : List (String × Json)) (c m : Json),
      List.lookup "error" fields = some (Json.obj errFields) →
      List.lookup "message" errFields = some m →
      List.lookup "code" errFields = some c →
      webServiceErrorInit fallback (some (some (Json.obj fields)))
        = .ok (m, some c))
    ∧ (∀ (fields errFields : List (String × Json)) (c m : Json),
      statusIsOk (List.lookup "status" fields) = false →
      List.lookup "error" fields = some (Json.obj errFields) →
      List.lookup "code" errFields = some c →
      List.lookup "message" errFields = some m →
      checkResponseStatus (Json.obj fields)
        = .error (.webServiceError
            ("error " ++ c.render ++ ": " ++ m.render))
      ∧ strContainsSub ("error " ++ c.render ++ ": " ++ m.render) c.render = true
      ∧ strContainsSub ("error " ++ c.render ++ ": " ++ m.render) m.render = true)
    ∧ (∀ (fields : List (String × Json)),
      statusIsOk (List.lookup "status" fields) = false →
      List.lookup "error" fields = none →
      checkResponseStatus (Json.obj fields)
        = .error (.webServiceError ("response: " ++ (Json.obj fields).render)))
    ∧ (∀ (fields errFields : List (String × Json)),
      statusIsOk (List.lookup "status" fields) = false →
      List.lookup "error" fields = some (Json.obj errFields) →
      List.lookup "code" errFields = none →
      checkResponseStatus (Json.obj fields)
        = .error (.webServiceError ("response: " ++ (Json.obj fields).render)))
    ∧ (∀ (fields errFields : List (String × Json)) (c : Json),
      statusIsOk (List.lookup "status" fields) = false →
      List.lookup "error" fields = some (Json.obj errFields) →
      List.lookup "code" errFields = some c →
      List.lookup "message" errFields = none →
      checkResponseStatus (Json.obj fields)
        = .error (.webServiceError ("response: " ++ (Json.obj fields).render)))
    ∧ (∀ (net : List (String × Json) → Json) (apikey userkey : String)
        (data data0 : List Record) (args : List (String × Json)) (e : PyErr),
      submitPrepare apikey userkey data = .ok (data0, args) →
      checkResponseStatus (net args) = .error e →
      submit net apikey userkey data = (.error e, true))
    ∧ (∀ (releaseIds : ReleaseIds) (disabledFlag : Bool) (response : Json)
        (e : PyErr),
      checkResponseStatus response = .error e →
      track_by_mbid releaseIds disabledFlag response = .error e) := by
  refine ⟨?_, ?_, ?_, ?_, ?_, ?_, ?_⟩
  · intro fallback fields errFields c m herr hmsg hcode
    simp [webServiceErrorInit, herr, hmsg, hcode]
  · intro fields errFields c m hstat herr hcode hmsg
    refine ⟨?_, ?_, ?_⟩
    · simp [checkResponseStatus, Json.dictGet, hstat, Json.getItem, herr,
            hcode, hmsg]
    · refine strContains_append_of_left _ _ _ ?_
      refine strContains_append_of_left _ _ _ ?_
      exact strContains_append_right "error " c.render c.render
        (strContains_self c.render)
    · exact strContains_append_right ("error " ++ c.render ++ ": ")
        m.render m.render (strContains_self m.render)
  · intro fields hstat herr
    simp [checkResponseStatus, Json.dictGet, hstat, Json.getItem, herr]
  · intro fields errFields hstat herr hcode
    simp [checkResponseStatus, Json.dictGet, hstat, Json.getItem, herr, hcode]
  · intro fields errFields c hstat herr hcode hmsg
    simp [checkResponseStatus, Json.dictGet, hstat, Json.getItem, herr,
          hcode, hmsg]
  · intro net apikey userkey data data0 args e hprep hstat
    unfold submit
    rw [hprep]
    simp only []
    rw [hstat]
  · intro releaseIds disabledFlag response e hstat
    cases releaseIds <;> simp [track_by_mbid, hstat]

/-- Witness for C9 at a concrete error payload with code 4 and message
"invalid API key". -/
theorem c9_webservice_error_fields_witness :
    webServiceErrorInit "fallback"
        (some (some (Json.obj
          [("status", Json.str "error"),
           ("error", Json.obj [("code", Json.num 4),
                               ("message", Json.str "invalid API key")])])))
      = .ok (Json.str "invalid API key", some (Json.num 4)) :=
  c9_webservice_error_fields.1 "fallback"
    [("status", Json.str "error"),
     ("error", Json.obj [("code", Json.num 4),
                         ("message", Json.str "invalid API key")])]
    [("code", Json.num 4), ("message", Json.str "invalid API key")]
    (Json.num 4) (Json.str "invalid API key") rfl rfl rfl

theorem setKey_lookup_self (d : Record) (k : String) (v : Json) :
    List.lookup k (setKey d k v) = some v := by
  induction d with
  | nil => simp [setKey]
  | cons kv rest ih =>
      obtain ⟨k', v'⟩ := kv
      by_cases hk : k' = k
      · subst hk
        simp [setKey]
      · have hbeq : (k == k') = false :=
          beq_eq_false_iff_ne.mpr (Ne.symm hk)
        simp only [setKey, if_neg hk, List.lookup_cons, hbeq]
        exact ih

theorem setKey_lookup_other (d : Record) (k k0 : String) (v : Json)
    (h : k0 ≠ k) : List.lookup k0 (setKey d k v) = List.lookup k0 d := by
  have hbeq0 : (k0 == k) = false := beq_eq_false_iff_ne.mpr h
  induction d with
  | nil => simp [setKey, List.lookup_cons, hbeq0]
  | cons kv rest ih =>
      obtain ⟨k', v'⟩ := kv
      by_cases hk : k' = k
      · subst hk
        have hset : setKey ((k', v') :: rest) k' v = (k', v) :: rest := by
          simp [setKey]
        rw [hset, List.lookup_cons, List.lookup_cons, hbeq0]
      · simp only [setKey, if_neg hk, List.lookup_cons]
        cases hbeq : (k0 == k') <;> simp [ih]

theorem processRecord_ok_shape (d d' : Record)
    (h : processRecord d = .ok d') :
    (∀ k, k ≠ "duration" → List.lookup k d' = List.lookup k d)
    ∧ (∃ v n, List.lookup "duration" d = some v ∧ pyInt v = .ok n
        ∧ List.lookup "duration" d' = some (Json.num (n : ℚ)))
    ∧ (∀ q, List.lookup "duration" d = some (Json.num q) →
        List.lookup "duration" d' = some (Json.num ((ratTrunc q : Int) : ℚ))) := by
  unfold processRecord at h
  split at h
  case _ v w hdur hfp =>
      cases hint : pyInt v with
      | error e => rw [hint] at h; simp at h
      | ok n =>
          rw [hint] at h
          simp only [exceptBind_ok, Except.ok.injEq] at h
          subst h
          refine ⟨?_, ⟨v, n, hdur, hint, setKey_lookup_self d _ _⟩, ?_⟩
          · intro k hk
            exact setKey_lookup_other d _ k _ hk
          · intro q hq
            rw [hq] at hdur
            injection hdur with hv
            subst hv
            simp only [pyInt, Except.ok.injEq] at hint
            rw [setKey_lookup_self d _ _, hint]
  case _ => simp at h

theorem submitLoop_ok_forall2 (data : List Record) :
    ∀ (i : Nat) (data' : List Record) (args : List (String × Json)),
    submitLoop i data = .ok (data', args) →
    List.Forall₂ (fun d d' =>
      (∀ k, k ≠ "duration" → List.lookup k d' = List.lookup k d)
      ∧ (∃ v n, List.lookup "duration" d = some v ∧ pyInt v = .ok n
          ∧ List.lookup "duration" d' = some (Json.num (n : ℚ)))
      ∧ (∀ q, List.lookup "duration" d = some (Json.num q) →
          List.lookup "duration" d' = some (Json.num ((ratTrunc q : Int) : ℚ))))
      data data' := by
  induction data with
  | nil =>
      intro i data' args h
      simp only [submitLoop, Except.ok.injEq, Prod.mk.injEq] at h
      rw [← h.1]
      exact List.Forall₂.nil
  | cons d rest ih =>
      intro i data' args h
      simp only [submitLoop] at h
      cases hp : processRecord d with
      | error e => rw [hp] at h; simp at h
      | ok d0 =>
          rw [hp] at h
          cases hl : submitLoop (i + 1) rest with
          | error e => rw [hl] at h; simp at h
          | ok pr =>
              obtain ⟨rest0, args0⟩ := pr
              rw [hl] at h
              simp only [exceptBind_ok, Except.ok.injEq, Prod.mk.injEq] at h
              rw [← h.1]
              exact List.Forall₂.cons (processRecord_ok_shape d d0 hp)
                (ih (i + 1) rest0 args0 hl)

/-- C10: when `submit`'s argument building succeeds, every caller-supplied
record is mutated before transmission: its `duration` value is replaced by
its Python `int()` conversion — for a numeric duration, its truncation
toward zero — while every other key maps to its original value. -/
theorem c10_submit_mutates_duration (apikey userkey : String)
    (data data' : List Record) (args : List (String × Json))
    (h : submitPrepare apikey userkey data = .ok (data', args)) :
    List.Forall₂ (fun d d' =>
      (∀ k, k ≠ "duration" → List.lookup k d' = List.lookup k d)
      ∧ (∃ v n, List.lookup "duration" d = some v ∧ pyInt v = .ok n
          ∧ List.lookup "duration" d' = some (Json.num (n : ℚ)))
      ∧ (∀ q, List.lookup "duration" d = some (Json.num q) →
          List.lookup "duration" d' = some (Json.num ((ratTrunc q : Int) : ℚ))))
      data data' := by
  unfold submitPrepare at h
  cases hl : submitLoop 0 data with
  | error e => rw [hl] at h; simp at h
  | ok pr =>
      obtain ⟨d0, a0⟩ := pr
      rw [hl] at h
      simp only [exceptBind_ok, Except.ok.injEq, Prod.mk.injEq] at h
      rw [← h.1]
      exact submitLoop_ok_forall2 data 0 d0 a0 hl

/-- Witness for C10 at one record with duration 5. -/
theorem c10_submit_mutates_duration_witness :
    List.Forall₂ (fun d d' =>
      (∀ k, k ≠ "duration" → List.lookup k d' = List.lookup k d)
      ∧ (∃ v n, List.lookup "duration" d = some v ∧ pyInt v = .ok n
          ∧ List.lookup "duration" d' = some (Json.num (n : ℚ)))
      ∧ (∀ q, List.lookup "duration" d = some (Json.num q) →
          List.lookup "duration" d' = some (Json.num ((ratTrunc q : Int) : ℚ))))
      [[("fingerprint", Json.str "fp"), ("duration", Json.num 5)]]
      [[("fingerprint", Json.str "fp"), ("duration", Json.num 5)]] :=
  c10_submit_mutates_duration "a" "u"
    [[("fingerprint", Json.str "fp"), ("duration", Json.num 5)]]
    [[("fingerprint", Json.str "fp"), ("duration", Json.num 5)]]
    [("format", Json.str "json"), ("client", Json.str "a"),
     ("user", Json.str "u"),
     ("fingerprint.0", Json.str "fp"), ("duration.0", Json.num 5)] rfl

theorem artistNames_encoded (names : List String) :
    artistNames (names.map fun n => Json.obj [("name", Json.str n)])
      = .ok (names.map Json.str) := by
  induction names with
  | nil => rfl
  | cons n rest ih => simp [artistNames, Json.getItem, ih]

theorem pyJoinAll_strs (names : List String) :
    pyJoinAll (names.map Json.str) = .ok names := by
  induction names with
  | nil => rfl
  | cons n rest ih => simp [pyJoinAll, pyJoinElem, ih]

theorem artistNameOf_encoded (r : RecordingInfo) :
    artistNameOf (encodeRecording r)
      = .ok (if r.artists.isEmpty then none
             else some (String.intercalate "; " r.artists)) := by
  unfold artistNameOf encodeRecording
  cases hA : r.artists with
  | nil =>
      cases r.title <;>
        simp [Json.dictGet, List.lookup_cons]
  | cons a as =>
      cases r.title <;>
        simp [Json.dictGet, List.lookup_cons, Json.truthy]
      all_goals
        rw [show Json.obj [("name", Json.str a)]
              :: List.map (fun n => Json.obj [("name", Json.str n)]) as
              = List.map (fun n => Json.obj [("name", Json.str n)]) (a :: as)
              from rfl,
            artistNames_encoded, exceptBind_ok, pyJoinAll_strs, exceptBind_ok]

theorem tupleForRecording_encoded (score : Json) (r : RecordingInfo) :
    tupleForRecording score (encodeRecording r)
      = .ok (score, Json.str r.rid, r.title.map Json.str,
             if r.artists.isEmpty then none
             else some (String.intercalate "; " r.artists)) := by
  unfold tupleForRecording
  rw [artistNameOf_encoded]
  unfold encodeRecording
  cases r.title <;> cases hA : r.artists <;>
    simp [Json.getItem, Json.dictGet, List.lookup_cons]

theorem tuplesForRecordings_encoded (s : ℚ) (recs : List RecordingInfo) :
    tuplesForRecordings (Json.num s) (recs.map encodeRecording)
      = .ok (recs.map (expectedTuple s)) := by
  induction recs with
  | nil => rfl
  | cons r rest ih =>
      simp [tuplesForRecordings, tupleForRecording_encoded, ih, expectedTuple]

theorem tuplesForResult_encoded (r : ResultInfo) :
    tuplesForResult (encodeResult r)
      = .ok (match r.recordings with
             | none => []
             | some recs => recs.map (expectedTuple r.score)) := by
  unfold tuplesForResult encodeResult
  cases hR : r.recordings with
  | none => simp [Json.getItem, Json.hasKey, List.lookup_cons]
  | some recs =>
      simp [Json.getItem, Json.hasKey, List.lookup_cons,
            tuplesForRecordings_encoded]

theorem tuplesForResults_encoded (rs : List ResultInfo) :
    tuplesForResults (rs.map encodeResult) = .ok (expectedTuples rs) := by
  induction rs with
  | nil => rfl
  | cons r rest ih =>
      simp [tuplesForResults, tuplesForResult_encoded, ih, expectedTuples]

/-- C6: on every valid lookup payload — status `"ok"` with a results list —
`parse_lookup_result` yields exactly the expected tuples: results in server
order, a result without a `recordings` key contributing nothing while
processing continues, one tuple per recording otherwise, the artist names
joined with `"; "` in server order when present and `none` when absent, and
an absent title yielding `none` rather than an error. -/
theorem c6_parse_lookup_result_yields (rs : List ResultInfo) :
    parse_lookup_result (encodeLookupPayload rs) = .ok (expectedTuples rs) := by
  unfold parse_lookup_result encodeLookupPayload
  simp [Json.getItem, Json.hasKey, Json.isStr, List.lookup_cons,
        tuplesForResults_encoded]

theorem feedBlocks_eq_foldlM {σ φ : Type} (eng : Engine σ φ)
    (endposition : Nat) :
    ∀ (blocks : List (List Nat)) (st : σ) (position : Nat),
      feedBlocks eng st position endposition blocks
        = (fedPrefix position endposition blocks).foldlM eng.feed st := by
  intro blocks
  induction blocks with
  | nil => intro st position; rfl
  | cons b rest ih =>
      intro st position
      simp only [feedBlocks, fedPrefix]
      by_cases hle : endposition ≤ position + b.length / 2
      · simp only [if_pos hle, List.foldlM_cons]
        cases hf : eng.feed st b <;> simp [List.foldlM]
      · simp only [if_neg hle, List.foldlM_cons]
        cases hf : eng.feed st b <;> simp [ih]

theorem fedPrefix_take (endposition : Nat) :
    ∀ (blocks : List (List Nat)) (position : Nat),
      ∃ k, fedPrefix position endposition blocks = blocks.take k
        ∧ k ≤ blocks.length
        ∧ (∀ j, j + 1 < k →
            position + sampleCount (blocks.take (j + 1)) < endposition)
        ∧ (k = blocks.length
           ∨ endposition ≤ position + sampleCount (blocks.take k)) := by
  intro blocks
  induction blocks with
  | nil =>
      intro position
      exact ⟨0, rfl, Nat.le_refl 0, fun j hj => absurd hj (by omega),
             Or.inl rfl⟩
  | cons b rest ih =>
      intro position
      by_cases hle : endposition ≤ position + b.length / 2
      · refine ⟨1, ?_, ?_, ?_, ?_⟩
        · simp [fedPrefix, if_pos hle]
        · simp
        · intro j hj; omega
        · right
          simpa [sampleCount] using hle
      · obtain ⟨k, h1, h2, h3, h4⟩ := ih (position + b.length / 2)
        refine ⟨k + 1, ?_, ?_, ?_, ?_⟩
        · simp [fedPrefix, if_neg hle, h1, List.take_succ_cons]
        · simpa using h2
        · intro j hj
          cases j with
          | zero =>
              simp only [List.take_succ_cons, List.take_zero, sampleCount]
              omega
          | succ jj =>
              have hlt : jj + 1 < k := by omega
              have hx := h3 jj hlt
              simp only [List.take_succ_cons, sampleCount]
              omega
        · rcases h4 with h4 | h4
          · left
            simp [h4]
          · right
            simp only [List.take_succ_cons, sampleCount]
            omega

/-- C7: `fingerprint` runs the engine as start, then feed over exactly the
prefix `fedPrefix` of the PCM blocks, then finish, with any engine error
mapped to `FingerprintGenerationError` — so the overall result is either a
finished fingerprint or that error, never an engine-specific one; and the
fed prefix stops exactly when the cumulative sample count (bytes divided by
2 per block) reaches the ceiling `samplerate * channels * maxlength`: every
block fed except the last is fed while the cumulative count is still below
the ceiling, and feeding stops only at exhaustion or at the ceiling. -/
theorem c7_fingerprint_feed_ceiling (σ φ : Type) (eng : Engine σ φ)
    (st0 : σ) (samplerate channels maxlength : Nat)
    (pcmiter : List (List Nat)) :
    (fingerprint eng st0 samplerate channels pcmiter maxlength
      = match (do
            let st ← eng.start st0 samplerate channels
            let st ← (fedPrefix 0 (samplerate * channels * maxlength)
                pcmiter).foldlM eng.feed st
            eng.finish st : Except String φ) with
        | .ok fp => .ok fp
        | .error _ =>
            .error (.fingerprintGenerationError "fingerprint calculation failed"))
    ∧ ((∃ fp, fingerprint eng st0 samplerate channels pcmiter maxlength
          = .ok fp)
       ∨ fingerprint eng st0 samplerate channels pcmiter maxlength
          = .error (.fingerprintGenerationError "fingerprint calculation failed"))
    ∧ (∃ k, fedPrefix 0 (samplerate * channels * maxlength) pcmiter
          = pcmiter.take k
        ∧ k ≤ pcmiter.length
        ∧ (∀ j, j + 1 < k →
            sampleCount (pcmiter.take (j + 1))
              < samplerate * channels * maxlength)
        ∧ (k = pcmiter.length
           ∨ samplerate * channels * maxlength
              ≤ sampleCount (pcmiter.take k))) := by
  have h1 : fingerprint eng st0 samplerate channels pcmiter maxlength
      = match (do
            let st ← eng.start st0 samplerate channels
            let st ← (fedPrefix 0 (samplerate * channels * maxlength)
                pcmiter).foldlM eng.feed st
            eng.finish st : Except String φ) with
        | .ok fp => .ok fp
        | .error _ =>
            .error (.fingerprintGenerationError "fingerprint calculation failed") := by
    unfold fingerprint
    simp only [feedBlocks_eq_foldlM]
  refine ⟨h1, ?_, ?_⟩
  · rw [h1]
    cases hdo : (do
        let st ← eng.start st0 samplerate channels
        let st ← (fedPrefix 0 (samplerate * channels * maxlength)
            pcmiter).foldlM eng.feed st
        eng.finish st : Except String φ) with
    | ok fp => exact Or.inl ⟨fp, rfl⟩
    | error e => exact Or.inr rfl
  · obtain ⟨k, hk1, hk2, hk3, hk4⟩ :=
      fedPrefix_take (samplerate * channels * maxlength) pcmiter 0
    refine ⟨k, hk1, hk2, ?_, ?_⟩
    · intro j hj
      have hx := hk3 j hj
      omega
    · rcases hk4 with h | h
      · exact Or.inl h
      · right
        omega

end PyAcoustid
